import Mathlib

/-!
Verification development for the webcore-idnow-configuration repository.

The backing store (four DynamoDB tables) is modelled by lists of records;
`get` by key is `List.find?`, `put` after an absence check is list append,
update-in-place is `List.map`, and `delete` by key is `List.filter`.
Timestamps are abstracted to a `Nat` parameter `now`; the uuid generator is
abstracted to a counter carried in the store (`nextId`).

The definitions are translated from:
  - src/lambda/shortname_lambda/utils/index.js  (shortname CRUD, cascade delete)
  - src/lambda/version_lambda/utils/index.js    (composite-key version CRUD, cascade delete)
  - src/unnamed/part_010                        (configuration CRUD, scope checks, handler)
  - src/unnamed/part_012                        (association-table variant: addShortnameToVersion,
                                                 createVersionForShortname)
  - src/unnamed/part_004 / src/src/services/VersionService.ts
                                                (frontend versionsApi, duplicateVersion orchestrator)
-/

namespace WebcoreConfig

/-- A JSON scalar value as stored in a configuration record.  `vnull` models JSON null. -/
inductive Value where
  | vnull : Value
  | vbool  (b : Bool) : Value
  | vstr  (s : String) : Value
  | vnum  (n : Int) : Value
deriving DecidableEq, Repr

/-- A row of the Shortnames table. -/
structure ShortnameRec where
  shortname : String
  description : String
  createdBy : String
  createdAt : Nat
  updatedAt : Nat
deriving DecidableEq, Repr

/-- A row of the Versions table (composite-key variant: primary key `versionId = shortname:version`). -/
structure VersionRec where
  versionId : String
  shortname : String
  version : String
  description : String
  isActive : Bool
  createdBy : String
  createdAt : Nat
  updatedAt : Nat
deriving DecidableEq, Repr

/-- A row of the Configurations table (primary key `configId`, secondary index on `shortnameVersion`). -/
structure ConfigRec where
  configId : String
  shortnameVersion : String
  shortname : String
  version : String
  key : String
  value : Value
  description : String
  createdBy : String
  createdAt : Nat
  updatedAt : Nat
deriving DecidableEq, Repr

/-- The three tables used by the shortname-first (composite-key) stack, plus the uuid counter. -/
structure Store where
  shortnames : List ShortnameRec
  versions : List VersionRec
  configurations : List ConfigRec
  nextId : Nat
deriving DecidableEq, Repr

def emptyStore : Store := { shortnames := [], versions := [], configurations := [], nextId := 0 }

/-- DynamoDB `get` on the Shortnames table. -/
def findShortname (s : Store) (slug : String) : Option ShortnameRec :=
  s.shortnames.find? (fun r => r.shortname = slug)

/-- DynamoDB `get` on the Versions table by `versionId`. -/
def findVersion (s : Store) (vid : String) : Option VersionRec :=
  s.versions.find? (fun r => r.versionId = vid)

/-- DynamoDB `get` on the Configurations table by `configId`. -/
def findConfig (s : Store) (cid : String) : Option ConfigRec :=
  s.configurations.find? (fun r => r.configId = cid)

/-- DynamoDB `delete` on the Configurations table by `configId`. -/
def deleteConfigById (s : Store) (cid : String) : Store :=
  { s with configurations := s.configurations.filter (fun c => c.configId ≠ cid) }

/-- A Lambda response: status code, the JSON item on success, and the message of an
error body (empty on item-carrying success responses). -/
structure LResp (α : Type) where
  statusCode : Nat
  item : Option α
  message : String
deriving DecidableEq, Repr

/-- `createShortname` from src/lambda/shortname_lambda/utils/index.js: get-before-put
uniqueness check on the slug, then put with both timestamps set to now. -/
def createShortname (shortname userId description : String) (now : Nat) (s : Store) :
    LResp ShortnameRec × Store :=
  match findShortname s shortname with
  | some _ =>
    ({ statusCode := 409, item := none, message := "Shortname already exists" }, s)
  | none =>
    let snItem : ShortnameRec :=
      { shortname := shortname, description := description, createdBy := userId,
        createdAt := now, updatedAt := now }
    ({ statusCode := 201, item := some snItem, message := "" },
     { s with shortnames := s.shortnames ++ [snItem] })

/-- `getVersion` from src/lambda/version_lambda/utils/index.js: fetch by the composite
key `shortname:version`. -/
def getVersion (shortname version : String) (s : Store) : LResp VersionRec :=
  let versionId := shortname ++ ":" ++ version
  match findVersion s versionId with
  | none => { statusCode := 404, item := none, message := "Version not found" }
  | some v => { statusCode := 200, item := some v, message := "" }

/-- `createVersion` from src/lambda/version_lambda/utils/index.js: parent shortname
existence check first, then composite-key uniqueness check, then put. -/
def createVersion (shortname version userId description : String) (isActive : Bool)
    (now : Nat) (s : Store) : LResp VersionRec × Store :=
  match findShortname s shortname with
  | none =>
    ({ statusCode := 404, item := none, message := "Shortname not found" }, s)
  | some _ =>
    let versionId := shortname ++ ":" ++ version
    match findVersion s versionId with
    | some _ =>
      ({ statusCode := 409, item := none,
         message := "Version already exists for this shortname" }, s)
    | none =>
      let vItem : VersionRec :=
        { versionId := versionId, shortname := shortname, version := version,
          description := description, isActive := isActive, createdBy := userId,
          createdAt := now, updatedAt := now }
      ({ statusCode := 201, item := some vItem, message := "" },
       { s with versions := s.versions ++ [vItem] })

/-- `getAllConfigurations` from src/unnamed/part_010: secondary-index query on
`shortnameVersion = shortname:version`. -/
def getAllConfigurations (shortname version : String) (s : Store) : List ConfigRec :=
  s.configurations.filter (fun c => c.shortnameVersion = shortname ++ ":" ++ version)

/-- `getConfiguration` from src/unnamed/part_010: fetch by id, then reject with 404
when the stored scope string differs from `shortname:version`. -/
def getConfiguration (shortname version configId : String) (s : Store) : LResp ConfigRec :=
  match findConfig s configId with
  | none => { statusCode := 404, item := none, message := "Configuration not found" }
  | some c =>
    if c.shortnameVersion ≠ shortname ++ ":" ++ version then
      { statusCode := 404, item := none,
        message := "Configuration not found for the specified shortname and version" }
    else
      { statusCode := 200, item := some c, message := "" }

/-- The fresh uuid for a configuration, modelled from the store counter. -/
def freshConfigId (n : Nat) : String := "config-" ++ toString n

/-- `createConfiguration` from src/unnamed/part_010: parent shortname check, parent
version check, key-uniqueness query within the scope, then put with a fresh id. -/
def createConfiguration (shortname version key : String) (value : Value)
    (userId description : String) (now : Nat) (s : Store) : LResp ConfigRec × Store :=
  match findShortname s shortname with
  | none => ({ statusCode := 404, item := none, message := "Shortname not found" }, s)
  | some _ =>
    match findVersion s (shortname ++ ":" ++ version) with
    | none => ({ statusCode := 404, item := none, message := "Version not found" }, s)
    | some _ =>
      let shortnameVersion := shortname ++ ":" ++ version
      let existing := s.configurations.filter
        (fun c => c.shortnameVersion = shortnameVersion ∧ c.key = key)
      if existing.length > 0 then
        ({ statusCode := 409, item := none,
           message := "Configuration key already exists for this shortname and version" }, s)
      else
        let cItem : ConfigRec :=
          { configId := freshConfigId s.nextId, shortnameVersion := shortnameVersion,
            shortname := shortname, version := version, key := key, value := value,
            description := description, createdBy := userId, createdAt := now,
            updatedAt := now }
        ({ statusCode := 201, item := some cItem, message := "" },
         { s with configurations := s.configurations ++ [cItem], nextId := s.nextId + 1 })

/-- `updateConfiguration` from src/unnamed/part_010: scope-checked fetch, then an
UpdateExpression touching only `updatedAt` and the supplied `value` / `description`. -/
def updateConfiguration (shortname version configId : String) (value? : Option Value)
    (description? : Option String) (now : Nat) (s : Store) : LResp ConfigRec × Store :=
  match findConfig s configId with
  | none => ({ statusCode := 404, item := none, message := "Configuration not found" }, s)
  | some c =>
    if c.shortnameVersion ≠ shortname ++ ":" ++ version then
      ({ statusCode := 404, item := none,
         message := "Configuration not found for the specified shortname and version" }, s)
    else
      let c' : ConfigRec :=
        { c with
          updatedAt := now,
          value := match value? with | some v => v | none => c.value,
          description := match description? with | some d => d | none => c.description }
      ({ statusCode := 200, item := some c', message := "" },
       { s with configurations :=
           s.configurations.map (fun x => if x.configId = configId then c' else x) })

/-- `deleteConfiguration` from src/unnamed/part_010: scope-checked fetch, then delete by id. -/
def deleteConfiguration (shortname version configId : String) (s : Store) :
    LResp ConfigRec × Store :=
  match findConfig s configId with
  | none => ({ statusCode := 404, item := none, message := "Configuration not found" }, s)
  | some c =>
    if c.shortnameVersion ≠ shortname ++ ":" ++ version then
      ({ statusCode := 404, item := none,
         message := "Configuration not found for the specified shortname and version" }, s)
    else
      ({ statusCode := 200, item := none, message := "Configuration deleted successfully" },
       deleteConfigById s configId)

/-- One store delete issued by a cascading delete, recording the full record the
queried item referred to; replay only ever uses the key fields. -/
inductive DelOp where
  | delConfig (c : ConfigRec) : DelOp
  | delVersion  (v : VersionRec) : DelOp
  | delShortname (r : ShortnameRec) : DelOp
deriving DecidableEq, Repr

/-- `deleteVersion` from src/lambda/version_lambda/utils/index.js: existence check,
query the configurations of the scope, delete each by id, then delete the version
record.  The third component is the ordered sequence of store deletes issued. -/
def deleteVersion (shortname version : String) (s : Store) : Nat × Store × List DelOp :=
  let versionId := shortname ++ ":" ++ version
  match findVersion s versionId with
  | none => (404, s, [])
  | some vrec =>
    let shortnameVersion := shortname ++ ":" ++ version
    let configs := s.configurations.filter (fun c => c.shortnameVersion = shortnameVersion)
    let s1 := configs.foldl (fun st c => deleteConfigById st c.configId) s
    let s2 := { s1 with versions := s1.versions.filter (fun w => w.versionId ≠ versionId) }
    (200, s2, configs.map DelOp.delConfig ++ [DelOp.delVersion vrec])

/-- The inner loop of `deleteShortname` (src/lambda/shortname_lambda/utils/index.js):
for each version of the shortname, query and delete its configurations, then delete
the version record by its `versionId` attribute. -/
def cascadeVersions (shortname : String) : List VersionRec → Store → Store × List DelOp
  | [], s => (s, [])
  | v :: rest, s =>
    let shortnameVersion := shortname ++ ":" ++ v.version
    let configs := s.configurations.filter (fun c => c.shortnameVersion = shortnameVersion)
    let s1 := configs.foldl (fun st c => deleteConfigById st c.configId) s
    let s2 := { s1 with versions := s1.versions.filter (fun w => w.versionId ≠ v.versionId) }
    let res := cascadeVersions shortname rest s2
    (res.1, configs.map DelOp.delConfig ++ DelOp.delVersion v :: res.2)

/-- `deleteShortname` from src/lambda/shortname_lambda/utils/index.js: existence
check, cascade over all versions of the shortname, then delete the shortname row. -/
def deleteShortname (shortname : String) (s : Store) : Nat × Store × List DelOp :=
  match findShortname s shortname with
  | none => (404, s, [])
  | some snrec =>
    let versions := s.versions.filter (fun v => v.shortname = shortname)
    let res := cascadeVersions shortname versions s
    let s2 := { res.1 with shortnames := res.1.shortnames.filter (fun r => r.shortname ≠ shortname) }
    (200, s2, res.2 ++ [DelOp.delShortname snrec])

/-- `a` is a parent-record delete issued before the delete `b` of one of its still
remaining descendants: the order the cascade is never allowed to produce. -/
def isParentBefore : DelOp → DelOp → Prop
  | DelOp.delVersion v, DelOp.delConfig c => c.shortnameVersion = v.shortname ++ ":" ++ v.version
  | DelOp.delShortname r, DelOp.delVersion v => v.shortname = r.shortname
  | DelOp.delShortname r, DelOp.delConfig c => c.shortname = r.shortname
  | _, _ => False

/-- Well-formedness of the Versions table: the primary key really is the composite
`shortname:version` string, and primary keys are pairwise distinct. -/
def StoreWF (s : Store) : Prop :=
  (∀ v ∈ s.versions, v.versionId = v.shortname ++ ":" ++ v.version) ∧
  s.versions.Pairwise (fun a b => a.versionId ≠ b.versionId)

/-! ### HTTP handler layer (request bodies and their defaulting)

The handlers parse the JSON body; a missing field is `none`.  The JS defaulting
idiom `body.field || fallback` maps an absent field, and the empty string or
`false`, to the fallback, which on these types is exactly `Option.getD`. -/

/-- POST /shortnames body. -/
structure ShortnameCreateBody where
  shortname : Option String
  description : Option String
deriving DecidableEq, Repr

/-- POST /shortnames/slug/versions body. -/
structure VersionCreateBody where
  version : Option String
  description : Option String
  isActive : Option Bool
deriving DecidableEq, Repr

/-- POST .../configurations body.  The value is an arbitrary JSON value;
`Value.vnull` models an explicit JSON null. -/
structure ConfigCreateBody where
  key : Option String
  value : Value
  description : Option String
deriving DecidableEq, Repr

/-- PUT .../configurations/configId body.  The handler forwards only `value` and
`description`; any `key`, `shortname` or `version` field in the body is never read. -/
structure ConfigUpdateBody where
  key : Option String
  value : Option Value
  description : Option String
  shortname : Option String
  version : Option String
deriving DecidableEq, Repr

/-- The POST branch of the shortname Lambda handler
(src/lambda/shortname_lambda/utils/index.js, handler): 400 when the body slug is
missing or empty, otherwise `createShortname` with the description defaulted. -/
def shortnameHandlerPost (body : ShortnameCreateBody) (userId : String) (now : Nat)
    (s : Store) : LResp ShortnameRec × Store :=
  if body.shortname.getD "" = "" then
    ({ statusCode := 400, item := none, message := "Shortname is required" }, s)
  else
    createShortname (body.shortname.getD "") userId (body.description.getD "") now s

/-- The POST branch of the version Lambda handler for
/shortnames/slug/versions: 400 when the body version is missing or empty,
otherwise `createVersion` with description and isActive defaulted. -/
def versionHandlerPost (shortname : String) (body : VersionCreateBody) (userId : String)
    (now : Nat) (s : Store) : LResp VersionRec × Store :=
  if body.version.getD "" = "" then
    ({ statusCode := 400, item := none, message := "Version is required" }, s)
  else
    createVersion shortname (body.version.getD "") userId (body.description.getD "")
      (body.isActive.getD false) now s

/-- The POST branch of the configuration Lambda handler (src/unnamed/part_010,
handler): 400 when the body key is missing or empty, otherwise
`createConfiguration` with the description defaulted and the value passed through
unvalidated. -/
def configHandlerPost (shortname version : String) (body : ConfigCreateBody)
    (userId : String) (now : Nat) (s : Store) : LResp ConfigRec × Store :=
  if body.key.getD "" = "" then
    ({ statusCode := 400, item := none, message := "Configuration key is required" }, s)
  else
    createConfiguration shortname version (body.key.getD "") body.value userId
      (body.description.getD "") now s

/-- The PUT branch of the configuration Lambda handler (src/unnamed/part_010,
handler): forwards only `value` and `description` from the body. -/
def configHandlerPut (shortname version configId : String) (body : ConfigUpdateBody)
    (now : Nat) (s : Store) : LResp ConfigRec × Store :=
  updateConfiguration shortname version configId body.value body.description now s

/-! ### Association-table variant (src/unnamed/part_012)

This generation of the version Lambda keys the Versions table by the bare
version label and keeps shortname-version associations in a separate table
keyed by `shortnameVersionId = shortname:version`. -/

/-- A row of the version-first Versions table (primary key: the bare label). -/
structure VersionTopRec where
  version : String
  description : String
  isActive : Bool
  createdBy : String
  createdAt : Nat
  updatedAt : Nat
deriving DecidableEq, Repr

/-- A row of the ShortnameVersions association table. -/
structure ShortnameVersionRec where
  shortnameVersionId : String
  shortname : String
  version : String
  description : String
  isActive : Bool
  createdBy : String
  createdAt : Nat
  updatedAt : Nat
deriving DecidableEq, Repr

/-- The tables of the association-table stack. -/
structure AssocStore where
  shortnames : List ShortnameRec
  versionsTop : List VersionTopRec
  shortnameVersions : List ShortnameVersionRec
deriving DecidableEq, Repr

def findShortnameA (s : AssocStore) (slug : String) : Option ShortnameRec :=
  s.shortnames.find? (fun r => r.shortname = slug)

def findVersionTop (s : AssocStore) (version : String) : Option VersionTopRec :=
  s.versionsTop.find? (fun r => r.version = version)

def findAssoc (s : AssocStore) (svid : String) : Option ShortnameVersionRec :=
  s.shortnameVersions.find? (fun r => r.shortnameVersionId = svid)

/-- `addShortnameToVersion` from src/unnamed/part_012 (association-table variant):
version existence check; then, when the shortname row is absent, it is created
immediately; only afterwards is the association checked for a conflict. -/
def addShortnameToVersion (version shortname description userId : String) (now : Nat)
    (s : AssocStore) : LResp ShortnameVersionRec × AssocStore :=
  match findVersionTop s version with
  | none => ({ statusCode := 404, item := none, message := "Version not found" }, s)
  | some _ =>
    let s1 :=
      match findShortnameA s shortname with
      | some _ => s
      | none =>
        let snItem : ShortnameRec :=
          { shortname := shortname, description := description, createdBy := userId,
            createdAt := now, updatedAt := now }
        { s with shortnames := s.shortnames ++ [snItem] }
    let shortnameVersionId := shortname ++ ":" ++ version
    match findAssoc s1 shortnameVersionId with
    | some _ =>
      ({ statusCode := 409, item := none,
         message := "Shortname already exists for this version" }, s1)
    | none =>
      let svItem : ShortnameVersionRec :=
        { shortnameVersionId := shortnameVersionId, shortname := shortname,
          version := version,
          description := if description = "" then "Version " ++ version ++ " for " ++ shortname
                         else description,
          isActive := true, createdBy := userId, createdAt := now, updatedAt := now }
      ({ statusCode := 201, item := some svItem, message := "" },
       { s1 with shortnameVersions := s1.shortnameVersions ++ [svItem] })

/-- `createVersionForShortname` from src/unnamed/part_012: shortname existence check
first; then the bare-label version row is created when absent; then the association
is checked for a conflict and created. -/
def createVersionForShortname (shortname version userId description : String)
    (isActive : Bool) (now : Nat) (s : AssocStore) :
    LResp ShortnameVersionRec × AssocStore :=
  match findShortnameA s shortname with
  | none => ({ statusCode := 404, item := none, message := "Shortname not found" }, s)
  | some _ =>
    let s1 :=
      match findVersionTop s version with
      | some _ => s
      | none =>
        let vItem : VersionTopRec :=
          { version := version, description := description, isActive := isActive,
            createdBy := userId, createdAt := now, updatedAt := now }
        { s with versionsTop := s.versionsTop ++ [vItem] }
    let shortnameVersionId := shortname ++ ":" ++ version
    match findAssoc s1 shortnameVersionId with
    | some _ =>
      ({ statusCode := 409, item := none,
         message := "Version already exists for this shortname" }, s1)
    | none =>
      let svItem : ShortnameVersionRec :=
        { shortnameVersionId := shortnameVersionId, shortname := shortname,
          version := version, description := description, isActive := isActive,
          createdBy := userId, createdAt := now, updatedAt := now }
      ({ statusCode := 201, item := some svItem, message := "" },
       { s1 with shortnameVersions := s1.shortnameVersions ++ [svItem] })

/-! ### Frontend API layer and the duplication orchestrator

From src/unnamed/part_004 (`versionsApi`, `shortnamesApi`, `configurationsApi`)
and src/src/services/VersionService.ts.  `handleApiResponse` turns every non-2xx
response into a thrown error carrying the response body text, modelled as
`Except.error` of the error message.  Observable calls are recorded as events. -/

/-- Version form data sent by the frontend. -/
structure VersionFormData where
  version : String
  description : String
  isActive : Bool
deriving DecidableEq, Repr

/-- Observable actions of the orchestrator: table writes that succeeded, the
shortnames-of-a-version query, and the start of one iteration of the
per-shortname copy loop. -/
inductive ApiEvent where
  | queryVersionShortnames (version : String) : ApiEvent
  | wroteShortname (slug : String) : ApiEvent
  | wroteVersion (versionId : String) : ApiEvent
  | wroteConfig (configId : String) : ApiEvent
  | beganShortnameCopy (slug : String) : ApiEvent
deriving DecidableEq, Repr

/-- `shortnamesApi.create`: POST /shortnames through the shortname Lambda handler;
throws the error body on any non-2xx status. -/
def apiShortnamesCreate (slug description userId : String) (now : Nat) (s : Store) :
    Except String ShortnameRec × Store × List ApiEvent :=
  if slug = "" then
    (Except.error "Shortname is required", s, [])
  else
    let res := createShortname slug userId description now s
    match res.1.item with
    | some snItem => (Except.ok snItem, res.2, [ApiEvent.wroteShortname slug])
    | none => (Except.error res.1.message, res.2, [])

/-- `versionsApi.create`: POST /shortnames/slug/versions through the version
Lambda handler; throws the error body on any non-2xx status. -/
def apiVersionsCreate (shortname : String) (d : VersionFormData) (userId : String)
    (now : Nat) (s : Store) : Except String VersionRec × Store × List ApiEvent :=
  if d.version = "" then
    (Except.error "Version is required", s, [])
  else
    let res := createVersion shortname d.version userId d.description d.isActive now s
    match res.1.item with
    | some vItem => (Except.ok vItem, res.2, [ApiEvent.wroteVersion vItem.versionId])
    | none => (Except.error res.1.message, res.2, [])

/-- `configurationsApi.create`: POST .../configurations through the configuration
Lambda handler; throws the error body on any non-2xx status. -/
def apiConfigsCreate (shortname version key : String) (value : Value)
    (description userId : String) (now : Nat) (s : Store) :
    Except String ConfigRec × Store × List ApiEvent :=
  if key = "" then
    (Except.error "Configuration key is required", s, [])
  else
    let res := createConfiguration shortname version key value userId description now s
    match res.1.item with
    | some cItem => (Except.ok cItem, res.2, [ApiEvent.wroteConfig cItem.configId])
    | none => (Except.error res.1.message, res.2, [])

/-- `versionsApi.createVersion` (src/unnamed/part_004): first creates a shortname
named after the version label, swallowing any error from that attempt, then posts
the version under that shortname. -/
def versionsApiCreateVersion (d : VersionFormData) (userId : String) (now : Nat)
    (s : Store) : Except String VersionRec × Store × List ApiEvent :=
  let r1 := apiShortnamesCreate d.version ("Default shortname for version " ++ d.version)
    userId now s
  let r2 := apiVersionsCreate d.version d userId now r1.2.1
  (r2.1, r2.2.1, r1.2.2 ++ r2.2.2)

/-- `versionsApi.getVersionShortnames` (src/unnamed/part_004): scans all
shortnames and keeps those for which GET /shortnames/slug/versions/version
succeeds, swallowing the per-shortname 404s. -/
def versionsApiGetVersionShortnames (version : String) (s : Store) :
    List ShortnameRec × List ApiEvent :=
  (s.shortnames.filter (fun sn => (getVersion sn.shortname version s).statusCode = 200),
   [ApiEvent.queryVersionShortnames version])

/-- `versionsApi.createShortnameInVersion` (src/unnamed/part_004): creates the
shortname (throwing on conflict), then creates the version association under it
(throwing on conflict), and returns the created shortname. -/
def versionsApiCreateShortnameInVersion (version slug description userId : String)
    (now : Nat) (s : Store) : Except String ShortnameRec × Store × List ApiEvent :=
  match apiShortnamesCreate slug description userId now s with
  | (Except.error e, s1, e1) => (Except.error e, s1, e1)
  | (Except.ok snItem, s1, e1) =>
    let vd : VersionFormData :=
      { version := version,
        description := "Version " ++ version ++ " for " ++ snItem.shortname,
        isActive := true }
    match apiVersionsCreate snItem.shortname vd userId now s1 with
    | (Except.error e, s2, e2) => (Except.error e, s2, e1 ++ e2)
    | (Except.ok _, s2, e2) => (Except.ok snItem, s2, e1 ++ e2)

/-- The inner configuration-copy loop of `duplicateVersion`: creates each source
configuration under the destination; the first thrown error aborts the remaining
configurations of this shortname. -/
def copyConfigs (destShortname destVersion : String) (userId : String) (now : Nat) :
    List ConfigRec → Store → Except String Unit × Store × List ApiEvent
  | [], s => (Except.ok (), s, [])
  | c :: rest, s =>
    match apiConfigsCreate destShortname destVersion c.key c.value c.description
        userId now s with
    | (Except.error e, s1, e1) => (Except.error e, s1, e1)
    | (Except.ok _, s1, e1) =>
      let res := copyConfigs destShortname destVersion userId now rest s1
      (res.1, res.2.1, e1 ++ res.2.2)

/-- One iteration of the per-shortname loop of `duplicateVersion`: the whole body
is wrapped in try/catch, so any thrown error is swallowed and the loop proceeds. -/
def copyOneShortname (sourceVersion : String) (d : VersionFormData) (sn : ShortnameRec)
    (userId : String) (now : Nat) (s : Store) : Store × List ApiEvent :=
  match versionsApiCreateShortnameInVersion d.version sn.shortname sn.description
      userId now s with
  | (Except.error _, s1, e1) => (s1, e1)
  | (Except.ok newSn, s1, e1) =>
    let configs := getAllConfigurations sn.shortname sourceVersion s1
    let res := copyConfigs newSn.shortname d.version userId now configs s1
    (res.2.1, e1 ++ res.2.2)

/-- The per-shortname loop of `duplicateVersion`. -/
def copyShortnames (sourceVersion : String) (d : VersionFormData) (userId : String)
    (now : Nat) : List ShortnameRec → Store → Store × List ApiEvent
  | [], s => (s, [])
  | sn :: rest, s =>
    let r1 := copyOneShortname sourceVersion d sn userId now s
    let r2 := copyShortnames sourceVersion d userId now rest r1.1
    (r2.1, ApiEvent.beganShortnameCopy sn.shortname :: (r1.2 ++ r2.2))

/-- `duplicateVersion` (src/unnamed/part_004 `versionsApi.duplicateVersion`,
mirrored by src/src/services/VersionService.ts): create the destination version
(propagating its error), query the shortnames of the source version, then copy
each shortname best-effort, finally returning the destination version record. -/
def duplicateVersion (sourceVersion : String) (newVersionData : VersionFormData)
    (userId : String) (now : Nat) (s : Store) :
    Except String VersionRec × Store × List ApiEvent :=
  match versionsApiCreateVersion newVersionData userId now s with
  | (Except.error e, s1, e1) => (Except.error e, s1, e1)
  | (Except.ok newVersion, s1, e1) =>
    let q := versionsApiGetVersionShortnames sourceVersion s1
    let r := copyShortnames sourceVersion newVersionData userId now q.1 s1
    (Except.ok newVersion, r.1, e1 ++ q.2 ++ r.2)

/-! ### Concrete records used to evaluate the operations on explicit inputs -/

/-- A concrete shortname row. -/
def snApp : ShortnameRec :=
  { shortname := "app", description := "demo", createdBy := "u", createdAt := 0, updatedAt := 0 }

/-- The version row `app:v1`. -/
def verApp1 : VersionRec :=
  { versionId := "app:v1", shortname := "app", version := "v1", description := "",
    isActive := true, createdBy := "u", createdAt := 0, updatedAt := 0 }

/-- The version row `app:v2` (a pre-existing destination association). -/
def verApp2 : VersionRec :=
  { versionId := "app:v2", shortname := "app", version := "v2", description := "",
    isActive := true, createdBy := "u", createdAt := 0, updatedAt := 0 }

/-- The version row `v2:v2` (a pre-existing destination label, as left behind by a
previous successful duplication into label v2). -/
def verDest : VersionRec :=
  { versionId := "v2:v2", shortname := "v2", version := "v2", description := "",
    isActive := true, createdBy := "u", createdAt := 0, updatedAt := 0 }

/-- A concrete configuration row under `app:v1`. -/
def cfg1 : ConfigRec :=
  { configId := "c1", shortnameVersion := "app:v1", shortname := "app", version := "v1",
    key := "feature.enabled", value := Value.vbool true, description := "",
    createdBy := "u", createdAt := 0, updatedAt := 0 }

/-- Store for the duplication scenarios: the source version `v1` has one shortname
`app` carrying one configuration, and the association `app:v2` under the
destination label already exists. -/
def storeDup : Store :=
  { shortnames := [snApp], versions := [verApp1, verApp2], configurations := [cfg1],
    nextId := 0 }

/-- Store in which the destination label v2 itself already exists (`v2:v2`),
as after an earlier successful duplication into v2. -/
def storeDupDest : Store :=
  { shortnames := [snApp], versions := [verApp1, verDest], configurations := [cfg1],
    nextId := 0 }

/-- Store with one shortname and one version and no configurations. -/
def storeAppV1 : Store :=
  { shortnames := [snApp], versions := [verApp1], configurations := [], nextId := 0 }

/-- The form data used for duplication into the label v2. -/
def formV2 : VersionFormData := { version := "v2", description := "", isActive := true }

/-- The destination version record created by `versionsApiCreateVersion formV2`
on the empty store. -/
def dupNV : VersionRec :=
  { versionId := "v2:v2", shortname := "v2", version := "v2", description := "",
    isActive := true, createdBy := "u", createdAt := 0, updatedAt := 0 }

/-- The store after `versionsApiCreateVersion formV2` on the empty store. -/
def dupS1 : Store :=
  { shortnames := [{ shortname := "v2", description := "Default shortname for version v2",
                     createdBy := "u", createdAt := 0, updatedAt := 0 }],
    versions := [dupNV], configurations := [], nextId := 0 }

/-- The empty association-table store. -/
def emptyAssocStore : AssocStore :=
  { shortnames := [], versionsTop := [], shortnameVersions := [] }

/-- Association-table store: version v1 exists, no shortname rows, and the
association `app:v1` is already present. -/
def assocStoreApp : AssocStore :=
  { shortnames := [],
    versionsTop := [{ version := "v1", description := "", isActive := true,
                      createdBy := "u", createdAt := 0, updatedAt := 0 }],
    shortnameVersions := [{ shortnameVersionId := "app:v1", shortname := "app",
                            version := "v1", description := "", isActive := true,
                            createdBy := "u", createdAt := 0, updatedAt := 0 }] }

/-! ### Theorems -/

/-- Claim C5: creating a version under a slug with no Shortname record returns
NotFound 404 and writes nothing, whatever the body carries and whatever the child
tables contain, in both the composite-key implementation and the
association-table implementation. -/
theorem C5_parent_existence_gate (shortname version userId description : String)
    (isActive : Bool) (now : Nat) (s : Store) (t : AssocStore)
    (h1 : findShortname s shortname = none)
    (h2 : findShortnameA t shortname = none) :
    createVersion shortname version userId description isActive now s =
      ({ statusCode := 404, item := none, message := "Shortname not found" }, s) ∧
    createVersionForShortname shortname version userId description isActive now t =
      ({ statusCode := 404, item := none, message := "Shortname not found" }, t) := by
  constructor
  · unfold createVersion
    rw [h1]
  · unfold createVersionForShortname
    rw [h2]

/-- Witness for C5 at a concrete input: no shortname exists in the empty stores. -/
theorem C5_parent_existence_gate_witness :
    findShortname emptyStore "app" = none ∧
    findShortnameA emptyAssocStore "app" = none ∧
    (createVersion "app" "v1" "u" "" true 0 emptyStore =
        ({ statusCode := 404, item := none, message := "Shortname not found" }, emptyStore) ∧
      createVersionForShortname "app" "v1" "u" "" true 0 emptyAssocStore =
        ({ statusCode := 404, item := none, message := "Shortname not found" },
         emptyAssocStore)) :=
  ⟨rfl, rfl, C5_parent_existence_gate "app" "v1" "u" "" true 0 emptyStore emptyAssocStore rfl rfl⟩

/-- Claim C6: when the stored scope string of the record found under `configId`
differs from `slug:label`, get, update and delete all answer 404 and leave the
store untouched. -/
theorem C6_scope_isolation (s : Store) (slug label cid : String) (c : ConfigRec)
    (value? : Option Value) (description? : Option String) (now : Nat)
    (hfind : findConfig s cid = some c)
    (hscope : c.shortnameVersion ≠ slug ++ ":" ++ label) :
    getConfiguration slug label cid s =
      { statusCode := 404, item := none,
        message := "Configuration not found for the specified shortname and version" } ∧
    updateConfiguration slug label cid value? description? now s =
      ({ statusCode := 404, item := none,
         message := "Configuration not found for the specified shortname and version" }, s) ∧
    deleteConfiguration slug label cid s =
      ({ statusCode := 404, item := none,
         message := "Configuration not found for the specified shortname and version" }, s) := by
  refine ⟨?_, ?_, ?_⟩
  · unfold getConfiguration
    rw [hfind]
    simp [hscope]
  · unfold updateConfiguration
    rw [hfind]
    simp [hscope]
  · unfold deleteConfiguration
    rw [hfind]
    simp [hscope]

/-- Witness for C6: the record `c1` lives under `app:v1` and is invisible through
the scope `other:v1`. -/
theorem C6_scope_isolation_witness :
    findConfig storeDup "c1" = some cfg1 ∧
    cfg1.shortnameVersion ≠ "other" ++ ":" ++ "v1" ∧
    getConfiguration "other" "v1" "c1" storeDup =
      { statusCode := 404, item := none,
        message := "Configuration not found for the specified shortname and version" } :=
  ⟨rfl, by decide,
   (C6_scope_isolation storeDup "other" "v1" "c1" cfg1 none none 0 rfl (by decide)).1⟩

/-- Claim C8: an update through the configuration handler can change only value,
description and updatedAt; configId, key, shortname, version, scope, createdBy and
createdAt of the stored record are untouched, whatever the request body holds. -/
theorem C8_update_key_immutable (s : Store) (slug label cid : String)
    (body : ConfigUpdateBody) (now : Nat) (c : ConfigRec)
    (hfind : findConfig s cid = some c)
    (hscope : c.shortnameVersion = slug ++ ":" ++ label) :
    ∃ c' : ConfigRec,
      (configHandlerPut slug label cid body now s).1 =
        { statusCode := 200, item := some c', message := "" } ∧
      c'.configId = c.configId ∧ c'.key = c.key ∧ c'.shortname = c.shortname ∧
      c'.version = c.version ∧ c'.shortnameVersion = c.shortnameVersion ∧
      c'.createdBy = c.createdBy ∧ c'.createdAt = c.createdAt ∧
      (configHandlerPut slug label cid body now s).2 =
        { s with configurations :=
            s.configurations.map (fun x => if x.configId = cid then c' else x) } := by
  refine ⟨{ c with
            updatedAt := now
            value := (match body.value with | some v => v | none => c.value)
            description := (match body.description with | some d => d | none => c.description) },
    ?_, rfl, rfl, rfl, rfl, rfl, rfl, rfl, ?_⟩ <;>
  · unfold configHandlerPut updateConfiguration
    rw [hfind]
    simp [hscope]

/-- Witness for C8: a body that tries to overwrite key, scope and identity fields
leaves them all unchanged on the stored record. -/
theorem C8_update_key_immutable_witness :
    findConfig storeDup "c1" = some cfg1 ∧
    cfg1.shortnameVersion = "app" ++ ":" ++ "v1" ∧
    (∃ c' : ConfigRec,
      (configHandlerPut "app" "v1" "c1"
          { key := some "hacked", value := some (Value.vnum 7), description := some "x",
            shortname := some "other", version := some "v9" } 3 storeDup).1 =
        { statusCode := 200, item := some c', message := "" } ∧
      c'.configId = cfg1.configId ∧ c'.key = cfg1.key ∧ c'.shortname = cfg1.shortname ∧
      c'.version = cfg1.version ∧ c'.shortnameVersion = cfg1.shortnameVersion ∧
      c'.createdBy = cfg1.createdBy ∧ c'.createdAt = cfg1.createdAt ∧
      (configHandlerPut "app" "v1" "c1"
          { key := some "hacked", value := some (Value.vnum 7), description := some "x",
            shortname := some "other", version := some "v9" } 3 storeDup).2 =
        { storeDup with configurations :=
            storeDup.configurations.map (fun x => if x.configId = "c1" then c' else x) }) :=
  ⟨rfl, by decide,
   C8_update_key_immutable storeDup "app" "v1" "c1"
     { key := some "hacked", value := some (Value.vnum 7), description := some "x",
       shortname := some "other", version := some "v9" } 3 cfg1 rfl (by decide)⟩

/-- Claim C10: when the version exists but the Shortname row is absent,
`addShortnameToVersion` first inserts a brand-new Shortname row and only then
checks the association: with a pre-existing association it answers Conflict 409
having already written the Shortname; without one it answers 201, likewise having
silently created the Shortname as a side effect. -/
theorem C10_assoc_create_nonatomic (s : AssocStore)
    (version shortname description userId : String) (now : Nat) (v : VersionTopRec)
    (hver : findVersionTop s version = some v)
    (hsn : findShortnameA s shortname = none) :
    ((findAssoc s (shortname ++ ":" ++ version)).isSome →
      (addShortnameToVersion version shortname description userId now s).1.statusCode = 409 ∧
      (addShortnameToVersion version shortname description userId now s).2.shortnames =
        s.shortnames ++
          [{ shortname := shortname, description := description, createdBy := userId,
             createdAt := now, updatedAt := now }]) ∧
    (findAssoc s (shortname ++ ":" ++ version) = none →
      (addShortnameToVersion version shortname description userId now s).1.statusCode = 201 ∧
      (addShortnameToVersion version shortname description userId now s).2.shortnames =
        s.shortnames ++
          [{ shortname := shortname, description := description, createdBy := userId,
             createdAt := now, updatedAt := now }]) := by
  constructor
  · intro h
    obtain ⟨a, ha⟩ := Option.isSome_iff_exists.mp h
    simp only [findAssoc] at ha
    simp [addShortnameToVersion, findAssoc, hver, hsn, ha]
  · intro h
    simp only [findAssoc] at h
    simp [addShortnameToVersion, findAssoc, hver, hsn, h]

/-- Witness for C10: version v1 exists, shortname app is absent, association
`app:v1` is present; the call answers 409 yet has inserted the shortname row. -/
theorem C10_assoc_create_nonatomic_witness :
    findVersionTop assocStoreApp "v1" =
      some { version := "v1", description := "", isActive := true, createdBy := "u",
             createdAt := 0, updatedAt := 0 } ∧
    findShortnameA assocStoreApp "app" = none ∧
    ((addShortnameToVersion "v1" "app" "d" "u" 3 assocStoreApp).1.statusCode = 409 ∧
      (addShortnameToVersion "v1" "app" "d" "u" 3 assocStoreApp).2.shortnames =
        assocStoreApp.shortnames ++
          [{ shortname := "app", description := "d", createdBy := "u", createdAt := 3,
             updatedAt := 3 }]) :=
  ⟨rfl, rfl,
   (C10_assoc_create_nonatomic assocStoreApp "v1" "app" "d" "u" 3
     { version := "v1", description := "", isActive := true, createdBy := "u",
       createdAt := 0, updatedAt := 0 } rfl rfl).1 (by decide)⟩

/-- Counterexample to claim C7: on the empty store no uniqueness constraint is
violated, yet creating a version answers 404 and stores nothing, because the
owning shortname is missing — not 201 with the record as the claim states. -/
theorem C7_counterexample :
    (createVersion "app" "v1" "u" "d" true 0 emptyStore).1.statusCode = 404 ∧
    (createVersion "app" "v1" "u" "d" true 0 emptyStore).1.statusCode ≠ 201 ∧
    (createVersion "app" "v1" "u" "d" true 0 emptyStore).2 = emptyStore :=
  ⟨rfl, by decide, rfl⟩

/-- Claim C7 as amended: when its parent records exist, each create answers
Conflict 409 and writes nothing if its uniqueness constraint is violated and
otherwise stores the record and returns 201 with it; when a required parent is
missing (the owning shortname for a version, the owning shortname or version for
a configuration) the operation answers 404 and writes nothing whatever the child
tables hold — the parent check precedes the uniqueness check.  In particular
shortname create twice with one slug gives 201 then 409. -/
theorem C7_create_conflict_amended (s : Store) (slug userId d1 uid2 d2 : String)
    (now now2 : Nat) (label vdesc : String) (vact : Bool)
    (k : String) (val : Value) (cdesc : String) :
    (findShortname s slug = none →
      (createShortname slug userId d1 now s).1 =
        { statusCode := 201,
          item := some { shortname := slug, description := d1, createdBy := userId,
                         createdAt := now, updatedAt := now },
          message := "" } ∧
      (createShortname slug userId d1 now s).2 =
        { s with shortnames := s.shortnames ++
            [{ shortname := slug, description := d1, createdBy := userId,
               createdAt := now, updatedAt := now }] } ∧
      (createShortname slug uid2 d2 now2 (createShortname slug userId d1 now s).2).1.statusCode
        = 409 ∧
      (createShortname slug uid2 d2 now2 (createShortname slug userId d1 now s).2).2 =
        (createShortname slug userId d1 now s).2) ∧
    ((findShortname s slug).isSome →
      (createShortname slug userId d1 now s).1.statusCode = 409 ∧
      (createShortname slug userId d1 now s).2 = s) ∧
    ((findShortname s slug).isSome → (findVersion s (slug ++ ":" ++ label)).isSome →
      (createVersion slug label userId vdesc vact now s).1.statusCode = 409 ∧
      (createVersion slug label userId vdesc vact now s).2 = s) ∧
    ((findShortname s slug).isSome → findVersion s (slug ++ ":" ++ label) = none →
      (createVersion slug label userId vdesc vact now s).1 =
        { statusCode := 201,
          item := some { versionId := slug ++ ":" ++ label, shortname := slug,
                         version := label, description := vdesc, isActive := vact,
                         createdBy := userId, createdAt := now, updatedAt := now },
          message := "" } ∧
      (createVersion slug label userId vdesc vact now s).2 =
        { s with versions := s.versions ++
            [{ versionId := slug ++ ":" ++ label, shortname := slug, version := label,
               description := vdesc, isActive := vact, createdBy := userId,
               createdAt := now, updatedAt := now }] }) ∧
    (findShortname s slug = none →
      (createVersion slug label userId vdesc vact now s).1.statusCode = 404 ∧
      (createVersion slug label userId vdesc vact now s).2 = s) ∧
    ((findShortname s slug).isSome → (findVersion s (slug ++ ":" ++ label)).isSome →
      s.configurations.filter
          (fun c => c.shortnameVersion = slug ++ ":" ++ label ∧ c.key = k) ≠ [] →
      (createConfiguration slug label k val userId cdesc now s).1.statusCode = 409 ∧
      (createConfiguration slug label k val userId cdesc now s).2 = s) ∧
    ((findShortname s slug).isSome → (findVersion s (slug ++ ":" ++ label)).isSome →
      s.configurations.filter
          (fun c => c.shortnameVersion = slug ++ ":" ++ label ∧ c.key = k) = [] →
      (createConfiguration slug label k val userId cdesc now s).1 =
        { statusCode := 201,
          item := some { configId := freshConfigId s.nextId,
                         shortnameVersion := slug ++ ":" ++ label, shortname := slug,
                         version := label, key := k, value := val, description := cdesc,
                         createdBy := userId, createdAt := now, updatedAt := now },
          message := "" } ∧
      (createConfiguration slug label k val userId cdesc now s).2 =
        { s with
          configurations := s.configurations ++
            [{ configId := freshConfigId s.nextId,
               shortnameVersion := slug ++ ":" ++ label, shortname := slug,
               version := label, key := k, value := val, description := cdesc,
               createdBy := userId, createdAt := now, updatedAt := now }]
          nextId := s.nextId + 1 }) ∧
    (findShortname s slug = none →
      createConfiguration slug label k val userId cdesc now s =
        ({ statusCode := 404, item := none, message := "Shortname not found" }, s)) ∧
    ((findShortname s slug).isSome → findVersion s (slug ++ ":" ++ label) = none →
      createConfiguration slug label k val userId cdesc now s =
        ({ statusCode := 404, item := none, message := "Version not found" }, s)) := by
  refine ⟨?_, ?_, ?_, ?_, ?_, ?_, ?_, ?_, ?_⟩
  · intro h
    have h' : s.shortnames.find? (fun r => r.shortname = slug) = none := h
    refine ⟨?_, ?_, ?_, ?_⟩ <;>
      simp [createShortname, findShortname, List.find?_append, h']
  · intro h
    obtain ⟨x, hx⟩ := Option.isSome_iff_exists.mp h
    simp [createShortname, hx]
  · intro h1 h2
    obtain ⟨x, hx⟩ := Option.isSome_iff_exists.mp h1
    obtain ⟨y, hy⟩ := Option.isSome_iff_exists.mp h2
    simp [createVersion, hx, hy]
  · intro h1 h2
    obtain ⟨x, hx⟩ := Option.isSome_iff_exists.mp h1
    simp [createVersion, hx, h2]
  · intro h
    constructor
    · unfold createVersion
      rw [h]
    · unfold createVersion
      rw [h]
  · intro h1 h2 h3
    obtain ⟨x, hx⟩ := Option.isSome_iff_exists.mp h1
    obtain ⟨y, hy⟩ := Option.isSome_iff_exists.mp h2
    simp only [Bool.decide_and] at h3
    have hlen : 0 < (s.configurations.filter
        (fun c => decide (c.shortnameVersion = slug ++ ":" ++ label) &&
          decide (c.key = k))).length :=
      List.length_pos.mpr h3
    simp [createConfiguration, hx, hy, hlen]
  · intro h1 h2 h3
    obtain ⟨x, hx⟩ := Option.isSome_iff_exists.mp h1
    obtain ⟨y, hy⟩ := Option.isSome_iff_exists.mp h2
    simp only [Bool.decide_and] at h3
    simp [createConfiguration, hx, hy, h3]
  · intro h
    unfold createConfiguration
    rw [h]
  · intro h1 h2
    obtain ⟨x, hx⟩ := Option.isSome_iff_exists.mp h1
    simp [createConfiguration, hx, h2]

/-- Witness for the amended C7: the 201-then-409 pair on the empty store, the
version-create conflict on an existing composite key, a configuration create
under existing parents, and the two missing-parent 404 cases of the
configuration create. -/
theorem C7_create_conflict_amended_witness :
    (findShortname emptyStore "web" = none ∧
      ((createShortname "web" "u" "d" 0 emptyStore).1 =
        { statusCode := 201,
          item := some { shortname := "web", description := "d", createdBy := "u",
                         createdAt := 0, updatedAt := 0 },
          message := "" } ∧
       (createShortname "web" "u" "d" 0 emptyStore).2 =
        { emptyStore with shortnames := emptyStore.shortnames ++
            [{ shortname := "web", description := "d", createdBy := "u",
               createdAt := 0, updatedAt := 0 }] } ∧
       (createShortname "web" "u2" "d2" 1
          (createShortname "web" "u" "d" 0 emptyStore).2).1.statusCode = 409 ∧
       (createShortname "web" "u2" "d2" 1
          (createShortname "web" "u" "d" 0 emptyStore).2).2 =
         (createShortname "web" "u" "d" 0 emptyStore).2)) ∧
    ((findShortname storeAppV1 "app").isSome ∧
      (findVersion storeAppV1 ("app" ++ ":" ++ "v1")).isSome ∧
      ((createVersion "app" "v1" "u" "d" true 0 storeAppV1).1.statusCode = 409 ∧
       (createVersion "app" "v1" "u" "d" true 0 storeAppV1).2 = storeAppV1)) ∧
    (storeAppV1.configurations.filter
        (fun c => c.shortnameVersion = "app" ++ ":" ++ "v1" ∧ c.key = "k") = [] ∧
      ((createConfiguration "app" "v1" "k" (Value.vstr "x") "u" "d" 0 storeAppV1).1 =
        { statusCode := 201,
          item := some { configId := freshConfigId storeAppV1.nextId,
                         shortnameVersion := "app" ++ ":" ++ "v1", shortname := "app",
                         version := "v1", key := "k", value := Value.vstr "x",
                         description := "d", createdBy := "u", createdAt := 0,
                         updatedAt := 0 },
          message := "" } ∧
       (createConfiguration "app" "v1" "k" (Value.vstr "x") "u" "d" 0 storeAppV1).2 =
        { storeAppV1 with
          configurations := storeAppV1.configurations ++
            [{ configId := freshConfigId storeAppV1.nextId,
               shortnameVersion := "app" ++ ":" ++ "v1", shortname := "app",
               version := "v1", key := "k", value := Value.vstr "x", description := "d",
               createdBy := "u", createdAt := 0, updatedAt := 0 }]
          nextId := storeAppV1.nextId + 1 })) ∧
    (findShortname emptyStore "app" = none ∧
      createConfiguration "app" "v1" "k" (Value.vstr "x") "u" "d" 0 emptyStore =
        ({ statusCode := 404, item := none, message := "Shortname not found" },
         emptyStore)) ∧
    ((findShortname storeAppV1 "app").isSome ∧
      findVersion storeAppV1 ("app" ++ ":" ++ "v9") = none ∧
      createConfiguration "app" "v9" "k" (Value.vstr "x") "u" "d" 0 storeAppV1 =
        ({ statusCode := 404, item := none, message := "Version not found" },
         storeAppV1)) :=
  ⟨⟨rfl, (C7_create_conflict_amended emptyStore "web" "u" "d" "u2" "d2" 0 1 "v1" "d" true
      "k" (Value.vstr "x") "d").1 rfl⟩,
   ⟨by decide, by decide,
    (C7_create_conflict_amended storeAppV1 "app" "u" "d" "u2" "d2" 0 1 "v1" "d" true
      "k" (Value.vstr "x") "d").2.2.1 (by decide) (by decide)⟩,
   ⟨by decide,
    (C7_create_conflict_amended storeAppV1 "app" "u" "d" "u2" "d2" 0 1 "v1" "k"
      true "k" (Value.vstr "x") "d").2.2.2.2.2.2.1 (by decide) (by decide) (by decide)⟩,
   ⟨rfl,
    (C7_create_conflict_amended emptyStore "app" "u" "d" "u2" "d2" 0 1 "v1" "d"
      true "k" (Value.vstr "x") "d").2.2.2.2.2.2.2.1 rfl⟩,
   ⟨by decide, by decide,
    (C7_create_conflict_amended storeAppV1 "app" "u" "d" "u2" "d2" 0 1 "v9" "d"
      true "k" (Value.vstr "x") "d").2.2.2.2.2.2.2.2 (by decide) (by decide)⟩⟩

/-- Counterexample to claim C9: a configuration created from a body carrying a
JSON null value succeeds with 201 and the stored record's value is null; the code
never validates the value. -/
theorem C9_counterexample :
    (configHandlerPost "app" "v1"
        { key := some "k", value := Value.vnull, description := none }
        "u" 5 storeAppV1).1.statusCode = 201 ∧
    ((configHandlerPost "app" "v1"
        { key := some "k", value := Value.vnull, description := none }
        "u" 5 storeAppV1).1.item.map (fun c => c.value)) = some Value.vnull := by
  constructor <;> rfl

/-- Claim C9 as amended: created shortname and version records are fully
populated with non-null fields and an omitted description defaults to the empty
string in all three creates, but a configuration's value is stored exactly as
supplied — including JSON null. -/
theorem C9_created_records_amended (s : Store) (userId : String) (now : Nat)
    (slug : String) (sdesc : Option String)
    (vslug vlabel : String) (vdesc : Option String) (vact : Option Bool)
    (cslug clabel ckey : String) (cval : Value) (cdesc : Option String) :
    (slug ≠ "" → findShortname s slug = none →
      (shortnameHandlerPost { shortname := some slug, description := sdesc }
          userId now s).1 =
        { statusCode := 201,
          item := some { shortname := slug, description := sdesc.getD "",
                         createdBy := userId, createdAt := now, updatedAt := now },
          message := "" }) ∧
    (vlabel ≠ "" → (findShortname s vslug).isSome →
      findVersion s (vslug ++ ":" ++ vlabel) = none →
      (versionHandlerPost vslug
          { version := some vlabel, description := vdesc, isActive := vact }
          userId now s).1 =
        { statusCode := 201,
          item := some { versionId := vslug ++ ":" ++ vlabel, shortname := vslug,
                         version := vlabel, description := vdesc.getD "",
                         isActive := vact.getD false, createdBy := userId,
                         createdAt := now, updatedAt := now },
          message := "" }) ∧
    (ckey ≠ "" → (findShortname s cslug).isSome →
      (findVersion s (cslug ++ ":" ++ clabel)).isSome →
      s.configurations.filter
          (fun c => c.shortnameVersion = cslug ++ ":" ++ clabel ∧ c.key = ckey) = [] →
      (configHandlerPost cslug clabel
          { key := some ckey, value := cval, description := cdesc } userId now s).1 =
        { statusCode := 201,
          item := some { configId := freshConfigId s.nextId,
                         shortnameVersion := cslug ++ ":" ++ clabel, shortname := cslug,
                         version := clabel, key := ckey, value := cval,
                         description := cdesc.getD "", createdBy := userId,
                         createdAt := now, updatedAt := now },
          message := "" }) := by
  refine ⟨?_, ?_, ?_⟩
  · intro hk h
    have h' : s.shortnames.find? (fun r => r.shortname = slug) = none := h
    simp [shortnameHandlerPost, hk, createShortname, findShortname, h']
  · intro hk h1 h2
    obtain ⟨x, hx⟩ := Option.isSome_iff_exists.mp h1
    simp [versionHandlerPost, hk, createVersion, hx, h2]
  · intro hk h1 h2 h3
    obtain ⟨x, hx⟩ := Option.isSome_iff_exists.mp h1
    obtain ⟨y, hy⟩ := Option.isSome_iff_exists.mp h2
    simp only [Bool.decide_and] at h3
    simp [configHandlerPost, hk, createConfiguration, hx, hy, h3]

/-- Witness for the amended C9: creating shortname, version and configuration
with omitted descriptions on concrete stores. -/
theorem C9_created_records_amended_witness :
    (("web" : String) ≠ "" ∧ findShortname emptyStore "web" = none ∧
      (shortnameHandlerPost { shortname := some "web", description := none }
          "u" 7 emptyStore).1 =
        { statusCode := 201,
          item := some { shortname := "web", description := "", createdBy := "u",
                         createdAt := 7, updatedAt := 7 },
          message := "" }) ∧
    (("v9" : String) ≠ "" ∧ (findShortname storeAppV1 "app").isSome ∧
      findVersion storeAppV1 ("app" ++ ":" ++ "v9") = none ∧
      (versionHandlerPost "app"
          { version := some "v9", description := none, isActive := none }
          "u" 7 storeAppV1).1 =
        { statusCode := 201,
          item := some { versionId := "app" ++ ":" ++ "v9", shortname := "app",
                         version := "v9", description := "", isActive := false,
                         createdBy := "u", createdAt := 7, updatedAt := 7 },
          message := "" }) ∧
    (("k" : String) ≠ "" ∧
      (configHandlerPost "app" "v1"
          { key := some "k", value := Value.vbool true, description := none }
          "u" 7 storeAppV1).1 =
        { statusCode := 201,
          item := some { configId := freshConfigId storeAppV1.nextId,
                         shortnameVersion := "app" ++ ":" ++ "v1", shortname := "app",
                         version := "v1", key := "k", value := Value.vbool true,
                         description := "", createdBy := "u", createdAt := 7,
                         updatedAt := 7 },
          message := "" }) :=
  ⟨⟨by decide, rfl,
    (C9_created_records_amended emptyStore "u" 7 "web" none "a" "b" none none
        "c" "d" "e" Value.vnull none).1 (by decide) rfl⟩,
   ⟨by decide, by decide, by decide,
    (C9_created_records_amended storeAppV1 "u" 7 "x" none "app" "v9" none none
        "c" "d" "e" Value.vnull none).2.1 (by decide) (by decide) (by decide)⟩,
   ⟨by decide,
    (C9_created_records_amended storeAppV1 "u" 7 "x" none "a" "b" none none
        "app" "v1" "k" (Value.vbool true) none).2.2 (by decide) (by decide) (by decide)
        (by decide)⟩⟩

/-! ### Helper lemmas for the cascade-order and duplication theorems -/

theorem pairwise_total {α : Type} {R : α → α → Prop} (h : ∀ a b, R a b) :
    ∀ l : List α, l.Pairwise R
  | [] => List.Pairwise.nil
  | a :: l => List.Pairwise.cons (fun b _ => h a b) (pairwise_total h l)

/-- Every event in the cascade trace is either the delete of a version of the list
or the delete of a configuration scoped to one of those versions. -/
theorem cascadeVersions_trace_mem (sn : String) (l : List VersionRec) (s : Store)
    (e : DelOp) (he : e ∈ (cascadeVersions sn l s).2) :
    (∃ v ∈ l, e = DelOp.delVersion v) ∨
    (∃ c, e = DelOp.delConfig c ∧ ∃ v ∈ l, c.shortnameVersion = sn ++ ":" ++ v.version) := by
  induction l generalizing s with
  | nil => simp [cascadeVersions] at he
  | cons v rest ih =>
    simp only [cascadeVersions, List.mem_append, List.mem_cons] at he
    rcases he with h1 | h2 | h3
    · obtain ⟨c, hc, rfl⟩ := List.mem_map.mp h1
      have hsv := of_decide_eq_true (List.mem_filter.mp hc).2
      exact Or.inr ⟨c, rfl, v, List.mem_cons_self v rest, hsv⟩
    · exact Or.inl ⟨v, List.mem_cons_self v rest, h2⟩
    · rcases ih _ h3 with ⟨w, hw, hee⟩ | ⟨c, hee, w, hw, hc⟩
      · exact Or.inl ⟨w, List.mem_cons_of_mem v hw, hee⟩
      · exact Or.inr ⟨c, hee, w, List.mem_cons_of_mem v hw, hc⟩

/-- In the cascade trace, no version delete ever precedes the delete of a
configuration still scoped under it. -/
theorem cascadeVersions_trace_ordered (sn : String) :
    ∀ (l : List VersionRec) (s : Store),
      (∀ v ∈ l, v.shortname = sn) →
      (∀ v ∈ l, v.versionId = v.shortname ++ ":" ++ v.version) →
      l.Pairwise (fun a b => a.versionId ≠ b.versionId) →
      ((cascadeVersions sn l s).2).Pairwise (fun a b => ¬ isParentBefore a b) := by
  intro l
  induction l with
  | nil => intro s _ _ _; simp [cascadeVersions]
  | cons v rest ih =>
    intro s hsn hid hnd
    simp only [cascadeVersions]
    rw [List.pairwise_append]
    obtain ⟨hvne, hndrest⟩ := List.pairwise_cons.mp hnd
    refine ⟨?_, ?_, ?_⟩
    · rw [List.pairwise_map]
      exact pairwise_total (fun a b h => h) _
    · rw [List.pairwise_cons]
      constructor
      · intro y hy hpb
        rcases cascadeVersions_trace_mem sn rest _ y hy with ⟨w, hw, rfl⟩ | ⟨c, rfl, w, hw, hc⟩
        · exact hpb
        · have hpb' : c.shortnameVersion = v.shortname ++ ":" ++ v.version := hpb
          have hveq : v.versionId = v.shortname ++ ":" ++ v.version :=
            hid v (List.mem_cons_self v rest)
          have hweq : w.versionId = w.shortname ++ ":" ++ w.version :=
            hid w (List.mem_cons_of_mem v hw)
          have hwsn : w.shortname = sn := hsn w (List.mem_cons_of_mem v hw)
          apply hvne w hw
          rw [hveq, hweq, hwsn, ← hc, hpb']
      · exact ih _ (fun w hw => hsn w (List.mem_cons_of_mem v hw))
          (fun w hw => hid w (List.mem_cons_of_mem v hw)) hndrest
    · intro x hx y _
      obtain ⟨c, _, rfl⟩ := List.mem_map.mp hx
      intro hpb
      cases y <;> exact hpb

/-- Creating a shortname touches only the Shortnames table. -/
theorem createShortname_keeps (slug userId description : String) (now : Nat) (s : Store) :
    ((createShortname slug userId description now s).2).versions = s.versions ∧
    ((createShortname slug userId description now s).2).configurations = s.configurations := by
  unfold createShortname
  split <;> exact ⟨rfl, rfl⟩

/-- Creating a version touches only the Versions table. -/
theorem createVersion_keeps (slug label userId description : String) (isActive : Bool)
    (now : Nat) (s : Store) :
    ((createVersion slug label userId description isActive now s).2).configurations =
      s.configurations := by
  unfold createVersion
  split
  · rfl
  · dsimp only
    split <;> rfl

/-- The shortname-create endpoint touches only the Shortnames table. -/
theorem apiShortnamesCreate_keeps (slug description userId : String) (now : Nat) (s : Store) :
    ((apiShortnamesCreate slug description userId now s).2.1).versions = s.versions ∧
    ((apiShortnamesCreate slug description userId now s).2.1).configurations =
      s.configurations := by
  unfold apiShortnamesCreate
  split
  · exact ⟨rfl, rfl⟩
  · dsimp only
    split <;> exact createShortname_keeps slug userId description now s

/-- The version-create endpoint never changes the Configurations table. -/
theorem apiVersionsCreate_keeps (slug : String) (d : VersionFormData) (userId : String)
    (now : Nat) (s : Store) :
    ((apiVersionsCreate slug d userId now s).2.1).configurations = s.configurations := by
  unfold apiVersionsCreate
  split
  · rfl
  · dsimp only
    split <;> exact createVersion_keeps slug d.version userId d.description d.isActive now s

/-- Step 1 of the duplication never changes the Configurations table. -/
theorem versionsApiCreateVersion_keeps (d : VersionFormData) (userId : String)
    (now : Nat) (s : Store) :
    ((versionsApiCreateVersion d userId now s).2.1).configurations = s.configurations := by
  show ((apiVersionsCreate d.version d userId now
      ((apiShortnamesCreate d.version ("Default shortname for version " ++ d.version)
        userId now s).2.1)).2.1).configurations = s.configurations
  rw [apiVersionsCreate_keeps]
  exact (apiShortnamesCreate_keeps d.version
    ("Default shortname for version " ++ d.version) userId now s).2

/-- A shortname that is a member of the Shortnames table is found by its slug. -/
theorem findShortname_isSome_of_mem (s : Store) (sn : ShortnameRec)
    (h : sn ∈ s.shortnames) : (findShortname s sn.shortname).isSome :=
  List.find?_isSome.mpr ⟨sn, h, by simp⟩

/-- The copy of one shortname whose slug already exists in the Shortnames table is
a caught Conflict: the store is unchanged and nothing is written. -/
theorem copyOneShortname_existing (src : String) (d : VersionFormData)
    (sn : ShortnameRec) (userId : String) (now : Nat) (s : Store)
    (h : (findShortname s sn.shortname).isSome) :
    copyOneShortname src d sn userId now s = (s, []) := by
  obtain ⟨x, hx⟩ := Option.isSome_iff_exists.mp h
  by_cases hz : sn.shortname = ""
  · simp [copyOneShortname, versionsApiCreateShortnameInVersion, apiShortnamesCreate, hz]
  · simp [copyOneShortname, versionsApiCreateShortnameInVersion, apiShortnamesCreate,
      createShortname, hz, hx]

/-- The per-shortname loop over shortnames that all already exist leaves the store
unchanged, while still visiting every shortname in order. -/
theorem copyShortnames_all_existing (src : String) (d : VersionFormData)
    (userId : String) (now : Nat) (sns : List ShortnameRec) (s : Store)
    (h : ∀ sn ∈ sns, (findShortname s sn.shortname).isSome) :
    copyShortnames src d userId now sns s =
      (s, sns.map (fun sn => ApiEvent.beganShortnameCopy sn.shortname)) := by
  induction sns with
  | nil => rfl
  | cons sn rest ih =>
    have h1 := h sn (List.mem_cons_self sn rest)
    simp only [copyShortnames, copyOneShortname_existing src d sn userId now s h1,
      ih (fun x hx => h x (List.mem_cons_of_mem sn hx)), List.map_cons]
    simp

/-- Claim C4: in the delete sequence issued by a cascading delete (shortname or
version), a parent record is never deleted before a still-remaining descendant:
no version delete precedes a configuration delete of its scope and no shortname
delete precedes anything it owns. -/
theorem C4_cascade_delete_order (s : Store) (slug label : String) (hwf : StoreWF s) :
    ((deleteShortname slug s).2.2).Pairwise (fun a b => ¬ isParentBefore a b) ∧
    ((deleteVersion slug label s).2.2).Pairwise (fun a b => ¬ isParentBefore a b) := by
  obtain ⟨hid, hnd⟩ := hwf
  constructor
  · unfold deleteShortname
    cases hfs : findShortname s slug with
    | none => simp
    | some snrec =>
      dsimp only
      rw [List.pairwise_append]
      refine ⟨?_, ?_, ?_⟩
      · apply cascadeVersions_trace_ordered
        · intro v hv
          exact of_decide_eq_true (List.mem_filter.mp hv).2
        · intro v hv
          exact hid v (List.mem_filter.mp hv).1
        · exact hnd.sublist (List.filter_sublist _)
      · simp
      · intro x _ y hy
        rw [List.mem_singleton] at hy
        subst hy
        cases x <;> exact fun h => h
  · unfold deleteVersion
    cases hfv : findVersion s (slug ++ ":" ++ label) with
    | none => simp [hfv]
    | some vrec =>
      simp only [hfv]
      rw [List.pairwise_append]
      refine ⟨?_, ?_, ?_⟩
      · rw [List.pairwise_map]
        exact pairwise_total (fun a b h => h) _
      · simp
      · intro x hx y hy
        obtain ⟨c, _, rfl⟩ := List.mem_map.mp hx
        rw [List.mem_singleton] at hy
        subst hy
        exact fun h => h

/-- Witness for C4 on a concrete well-formed store with one shortname, two
versions and one configuration. -/
theorem C4_cascade_delete_order_witness :
    StoreWF storeDup ∧
    ((deleteShortname "app" storeDup).2.2).Pairwise (fun a b => ¬ isParentBefore a b) ∧
    ((deleteVersion "app" "v1" storeDup).2.2).Pairwise (fun a b => ¬ isParentBefore a b) := by
  have hwf : StoreWF storeDup := ⟨by decide, by decide⟩
  exact ⟨hwf, (C4_cascade_delete_order storeDup "app" "v1" hwf).1,
    (C4_cascade_delete_order storeDup "app" "v1" hwf).2⟩

/-- Claim C1: when a version with the destination label already exists, the
duplication propagates the Conflict of the destination-version creation, changes
neither the Versions nor the Configurations table, and performs no copying: it
never queries the source shortnames nor creates any association or configuration
(every emitted event is at most the swallowed default-shortname write). -/
theorem C1_dest_conflict_aborts (src : String) (d : VersionFormData) (userId : String)
    (now : Nat) (s : Store) (hne : d.version ≠ "")
    (hex : (findVersion s (d.version ++ ":" ++ d.version)).isSome) :
    (duplicateVersion src d userId now s).1 =
      Except.error "Version already exists for this shortname" ∧
    ((duplicateVersion src d userId now s).2.1).versions = s.versions ∧
    ((duplicateVersion src d userId now s).2.1).configurations = s.configurations ∧
    ∀ e ∈ (duplicateVersion src d userId now s).2.2,
      ∃ slug, e = ApiEvent.wroteShortname slug := by
  obtain ⟨v, hv⟩ := Option.isSome_iff_exists.mp hex
  cases hfs : findShortname s d.version with
  | some x =>
    refine ⟨?_, ?_, ?_, ?_⟩ <;>
      simp [duplicateVersion, versionsApiCreateVersion, apiShortnamesCreate,
        apiVersionsCreate, createShortname, createVersion, hne, hfs, hv]
  | none =>
    have hfs' : s.shortnames.find? (fun r => r.shortname = d.version) = none := hfs
    have hfs2 : ({ s with shortnames := s.shortnames ++
        [{ shortname := d.version,
           description := "Default shortname for version " ++ d.version,
           createdBy := userId, createdAt := now, updatedAt := now }] } :
          Store).shortnames.find? (fun r => r.shortname = d.version) =
        some { shortname := d.version,
               description := "Default shortname for version " ++ d.version,
               createdBy := userId, createdAt := now, updatedAt := now } := by
      show (s.shortnames ++ [_]).find? _ = _
      rw [List.find?_append, hfs']
      simp
    have hv' : s.versions.find?
        (fun r => r.versionId = d.version ++ ":" ++ d.version) = some v := hv
    refine ⟨?_, ?_, ?_, ?_⟩ <;>
      simp [duplicateVersion, versionsApiCreateVersion, apiShortnamesCreate,
        apiVersionsCreate, createShortname, createVersion, findShortname, findVersion,
        hne, hfs', hfs2, hv']

/-- Witness for C1: duplicating into label v2 when `v2:v2` already exists. -/
theorem C1_dest_conflict_aborts_witness :
    (("v2" : String) ≠ "") ∧
    (findVersion storeDupDest ("v2" ++ ":" ++ "v2")).isSome ∧
    ((duplicateVersion "v1" formV2 "u" 1 storeDupDest).1 =
      Except.error "Version already exists for this shortname" ∧
    ((duplicateVersion "v1" formV2 "u" 1 storeDupDest).2.1).versions =
      storeDupDest.versions ∧
    ((duplicateVersion "v1" formV2 "u" 1 storeDupDest).2.1).configurations =
      storeDupDest.configurations ∧
    ∀ e ∈ (duplicateVersion "v1" formV2 "u" 1 storeDupDest).2.2,
      ∃ slug, e = ApiEvent.wroteShortname slug) := by
  refine ⟨by decide, by decide, ?_⟩
  have h := C1_dest_conflict_aborts "v1" formV2 "u" 1 storeDupDest (by decide) (by decide)
  exact ⟨h.1, h.2.1, h.2.2.1, h.2.2.2⟩

/-- Counterexample to claim C2: in `storeDup` the association `app:v2` under the
destination label v2 already exists and the source scope `app:v1` holds one
configuration, yet after duplicating v1 into v2 no configuration at all exists
under `app:v2` — the Conflict thrown by the association create is caught and the
copy of that shortname is skipped, not continued. -/
theorem C2_counterexample :
    findVersion storeDup ("app" ++ ":" ++ "v2") = some verApp2 ∧
    getAllConfigurations "app" "v1" storeDup = [cfg1] ∧
    ((duplicateVersion "v1" formV2 "u" 1 storeDup).1).toOption.isSome = true ∧
    getAllConfigurations "app" "v2" ((duplicateVersion "v1" formV2 "u" 1 storeDup).2.1)
      = [] := by
  refine ⟨by decide, by decide, by decide, by decide⟩

/-- Claim C2 as amended: when the shortname or its association under the
destination already exists, the association-create step of the per-shortname copy
throws Conflict, which the loop catches: that shortname's configurations are not
copied and the store is left unchanged by the iteration; consequently the
duplication, whose source shortnames always already exist, copies no
configuration at all. -/
theorem C2_conflict_skips_copy_amended (src : String) (d : VersionFormData)
    (userId : String) (now : Nat) (s : Store) :
    ((duplicateVersion src d userId now s).2.1).configurations = s.configurations ∧
    (∀ sn : ShortnameRec, (findShortname s sn.shortname).isSome →
      copyOneShortname src d sn userId now s = (s, [])) := by
  constructor
  · have hkeep := versionsApiCreateVersion_keeps d userId now s
    unfold duplicateVersion
    rcases hcv : versionsApiCreateVersion d userId now s with ⟨r1, s1, e1⟩
    rw [hcv] at hkeep
    cases r1 with
    | error e =>
      simpa using hkeep
    | ok nv =>
      dsimp only
      have hall : ∀ x ∈ (versionsApiGetVersionShortnames src s1).1,
          (findShortname s1 x.shortname).isSome := by
        intro x hx
        have hx' : x ∈ s1.shortnames.filter
            (fun sn => (getVersion sn.shortname src s1).statusCode = 200) := hx
        exact findShortname_isSome_of_mem s1 x (List.mem_filter.mp hx').1
      rw [copyShortnames_all_existing src d userId now
        (versionsApiGetVersionShortnames src s1).1 s1 hall]
      simpa using hkeep
  · intro sn h
    exact copyOneShortname_existing src d sn userId now s h

/-- Witness for the amended C2: a source shortname that exists in the table is
skipped without any write. -/
theorem C2_conflict_skips_copy_amended_witness :
    ((duplicateVersion "v1" formV2 "u" 1 storeDup).2.1).configurations =
      storeDup.configurations ∧
    ((findShortname storeDup snApp.shortname).isSome ∧
      copyOneShortname "v1" formV2 snApp "u" 1 storeDup = (storeDup, [])) :=
  ⟨(C2_conflict_skips_copy_amended "v1" formV2 "u" 1 storeDup).1,
   by decide,
   (C2_conflict_skips_copy_amended "v1" formV2 "u" 1 storeDup).2 snApp (by decide)⟩

/-- Claim C3: once the destination version is created, the duplication returns
that record whatever happens in the copy loop, and the loop visits every
shortname associated with the source version. -/
theorem C3_best_effort_loop (src : String) (d : VersionFormData) (userId : String)
    (now : Nat) (s : Store) (nv : VersionRec) (s1 : Store) (e1 : List ApiEvent)
    (h : versionsApiCreateVersion d userId now s = (Except.ok nv, s1, e1)) :
    (duplicateVersion src d userId now s).1 = Except.ok nv ∧
    ∀ sn ∈ (versionsApiGetVersionShortnames src s1).1,
      ApiEvent.beganShortnameCopy sn.shortname ∈ (duplicateVersion src d userId now s).2.2 := by
  unfold duplicateVersion
  rw [h]
  dsimp only
  refine ⟨rfl, ?_⟩
  intro sn hm
  have hall : ∀ x ∈ (versionsApiGetVersionShortnames src s1).1,
      (findShortname s1 x.shortname).isSome := by
    intro x hx
    have hx' : x ∈ s1.shortnames.filter
        (fun z => (getVersion z.shortname src s1).statusCode = 200) := hx
    exact findShortname_isSome_of_mem s1 x (List.mem_filter.mp hx').1
  rw [copyShortnames_all_existing src d userId now
    (versionsApiGetVersionShortnames src s1).1 s1 hall]
  simp only [List.mem_append, List.mem_map]
  exact Or.inr ⟨sn, hm, rfl⟩

/-- Witness for C3: a successful destination creation on the empty store; the
loop visits the one shortname the query returns. -/
theorem C3_best_effort_loop_witness :
    versionsApiCreateVersion formV2 "u" 0 emptyStore =
      (Except.ok dupNV, dupS1, [ApiEvent.wroteShortname "v2", ApiEvent.wroteVersion "v2:v2"]) ∧
    ((duplicateVersion "v2" formV2 "u" 0 emptyStore).1 = Except.ok dupNV ∧
      ∀ sn ∈ (versionsApiGetVersionShortnames "v2" dupS1).1,
        ApiEvent.beganShortnameCopy sn.shortname ∈
          (duplicateVersion "v2" formV2 "u" 0 emptyStore).2.2) :=
  ⟨rfl,
   C3_best_effort_loop "v2" formV2 "u" 0 emptyStore dupNV dupS1
     [ApiEvent.wroteShortname "v2", ApiEvent.wroteVersion "v2:v2"] rfl⟩

end WebcoreConfig
